import Mathlib

/-!
Verification of the Kognys research-graph engine against its specification.

The definitions below are a shallow embedding of the Python sources:
  - `kognys/graph/state.py`        (KognysState, the shared state schema)
  - `kognys/graph/builder.py`      (graph wiring and the two routers)
  - `kognys/agents/*.py`           (the node bodies, with LLM/HTTP outputs
                                    abstracted into an `Env` oracle)
  - `kognys/graph/unified_executor.py` (event emission and streaming)
  - `kognys/services/rate_limiter.py`  (token bucket)
  - `kognys/services/membase_client.py` (retrying ledger calls)

Machine floats are modelled as rationals, wall-clock time as an explicit
rational parameter, and external effects (LLM calls, HTTP calls, uuid4,
Python `hash`) as oracle inputs.
-/

namespace Kognys

/-- A retrieved document; the agents only ever project its `content` field
(via `doc.get('content', '')`), so the other keys are not modelled. -/
structure Doc where
  content : String
deriving DecidableEq

/-- One transcript entry, as built by `kognys/utils/transcript.py::append_entry`:
`agent` and `action` always present, `details` present only when truthy,
`output` present only when not `None`. -/
structure TEntry where
  agent : String
  action : String
  details : Option String
  output : Option String
deriving DecidableEq

/-- Embeds `append_entry` from `kognys/utils/transcript.py`: copies the
transcript and appends one entry.  A `details` that is Python-falsy (empty
string) is dropped; an `output` is kept whenever it is not `None`. -/
def append_entry (transcript : List TEntry) (agent action : String)
    (details : Option String) (output : Option String) : List TEntry :=
  let d := match details with
    | none => none
    | some s => if s = "" then none else some s
  transcript ++ [⟨agent, action, d, output⟩]

/-- The shared graph state, field for field from
`kognys/graph/state.py::KognysState`.  `refined_queries` is an association
list standing for the Python dict. -/
structure KognysState where
  question : String
  user_id : Option String
  paper_id : Option String
  task_id : Option String
  validated_question : Option String
  refined_queries : List (String × String)
  documents : List Doc
  retrieval_status : Option String
  draft_answer : Option String
  criticisms : List String
  revisions : Nat
  transcript : List TEntry
  final_answer : Option String
deriving DecidableEq

/-- The state a run starts from, `KognysState(question=..., user_id=...)`
with every other field at its declared default. -/
def initialState (q : String) (uid : Option String) : KognysState :=
  ⟨q, uid, none, none, none, [], [], none, none, [], 0, [], none⟩

/-- The names of the fields declared in `kognys/graph/state.py::KognysState`;
these are exactly the state channels the graph schema exposes. -/
def kognysStateFields : List String :=
  ["question", "user_id", "paper_id", "task_id", "validated_question",
   "refined_queries", "documents", "retrieval_status", "draft_answer",
   "criticisms", "revisions", "transcript", "final_answer"]

/-- Values that agent nodes write under keys that are not declared in
`KognysState` (`is_sufficient`, `context_summary`, `verifiable_data`). -/
inductive ExtraVal where
  | boolVal (b : Bool)
  | strVal (s : String)
  | dictVal
deriving DecidableEq

/-- The partial state a node returns: for each declared field, `some` when
the node's update dict carries that key, and `extra` for keys that are not
declared in the schema at all.  Nullable fields carry `Option (Option _)`:
the outer layer is "key present", the inner one the Python `None`. -/
structure StateUpdate where
  question : Option String
  user_id : Option (Option String)
  paper_id : Option (Option String)
  task_id : Option (Option String)
  validated_question : Option (Option String)
  refined_queries : Option (List (String × String))
  documents : Option (List Doc)
  retrieval_status : Option (Option String)
  draft_answer : Option (Option String)
  criticisms : Option (List String)
  revisions : Option Nat
  transcript : Option (List TEntry)
  final_answer : Option (Option String)
  extra : List (String × ExtraVal)
deriving DecidableEq

/-- The empty update (a node returning `{}`). -/
def StateUpdate.empty : StateUpdate :=
  ⟨none, none, none, none, none, none, none, none, none, none, none, none,
   none, []⟩

/-- The keys of a node's update dict, declared fields first, then
undeclared ones. -/
def updateKeys (u : StateUpdate) : List String :=
  (if u.question.isSome then ["question"] else []) ++
  (if u.user_id.isSome then ["user_id"] else []) ++
  (if u.paper_id.isSome then ["paper_id"] else []) ++
  (if u.task_id.isSome then ["task_id"] else []) ++
  (if u.validated_question.isSome then ["validated_question"] else []) ++
  (if u.refined_queries.isSome then ["refined_queries"] else []) ++
  (if u.documents.isSome then ["documents"] else []) ++
  (if u.retrieval_status.isSome then ["retrieval_status"] else []) ++
  (if u.draft_answer.isSome then ["draft_answer"] else []) ++
  (if u.criticisms.isSome then ["criticisms"] else []) ++
  (if u.revisions.isSome then ["revisions"] else []) ++
  (if u.transcript.isSome then ["transcript"] else []) ++
  (if u.final_answer.isSome then ["final_answer"] else []) ++
  u.extra.map Prod.fst

/-- Undeclared-key storage carried alongside the declared state (the pydantic
schema in the source has no such channels; see the schema theorems). -/
def GExtra : Type := List (String × ExtraVal)

instance : DecidableEq GExtra := by
  unfold GExtra
  infer_instance

/-- Replace-or-append one undeclared key. -/
def setExtra (ex : GExtra) (k : String) (v : ExtraVal) : GExtra :=
  (List.filter (fun p => !(p.1 = k : Bool)) ex) ++ [(k, v)]

/-- Merge a node's partial state into the state: every channel of the graph
schema is a last-value (replace) channel, since `KognysState` declares no
reducer annotations; keys absent from the update are untouched. -/
def applyUpdate (s : KognysState) (ex : GExtra) (u : StateUpdate) :
    KognysState × GExtra :=
  (⟨u.question.getD s.question,
    u.user_id.getD s.user_id,
    u.paper_id.getD s.paper_id,
    u.task_id.getD s.task_id,
    u.validated_question.getD s.validated_question,
    u.refined_queries.getD s.refined_queries,
    u.documents.getD s.documents,
    u.retrieval_status.getD s.retrieval_status,
    u.draft_answer.getD s.draft_answer,
    u.criticisms.getD s.criticisms,
    u.revisions.getD s.revisions,
    u.transcript.getD s.transcript,
    u.final_answer.getD s.final_answer⟩,
   u.extra.foldl (fun acc p => setExtra acc p.1 p.2) ex)

/-- Python's `str.lower()` (ASCII case folding suffices for the literals the
router searches for). -/
def strToLower (s : String) : String := String.mk (s.data.map Char.toLower)

/-- Python's `needle in hay` on strings: substring containment. -/
def strContains (hay needle : String) : Bool :=
  (List.range (hay.toList.length + 1)).any
    (fun i => needle.toList.isPrefixOf (hay.toList.drop i))

/-- Python truthiness of an optional string (`None` and `""` are falsy). -/
def truthyOpt (o : Option String) : Bool :=
  match o with
  | none => false
  | some s => !(s = "" : Bool)

/-- Embeds `route_after_retrieval` from `kognys/graph/builder.py`. -/
def route_after_retrieval (s : KognysState) : String :=
  if s.retrieval_status = some "No documents found" then "orchestrator"
  else "synthesizer"

/-- Embeds `route_after_checklist` from `kognys/graph/builder.py`.  The source
reads `state.is_sufficient`, an attribute that `KognysState` does not declare,
so that value is passed explicitly here; the only other field the router reads
is `state.criticisms`. -/
def route_after_checklist (is_sufficient : Bool) (s : KognysState) : String :=
  if is_sufficient then "orchestrator"
  else if s.criticisms.any
      (fun c => strContains (strToLower c) "documents" ||
        strContains (strToLower c) "sources") then
    "reviser"
  else "summarizer"

/-- The unconditional edges of the graph, from `kognys/graph/builder.py`
(`add_edge` calls); `none` is the `END` sentinel reached after `publisher`. -/
def staticEdge (name : String) : Option (Option String) :=
  match name with
  | "input_validator" => some (some "retriever")
  | "synthesizer" => some (some "challenger")
  | "challenger" => some (some "checklist")
  | "orchestrator" => some (some "publisher")
  | "publisher" => some none
  | "summarizer" => some (some "synthesizer")
  | "reviser" => some (some "retriever")
  | _ => none

/-- The structured output of the input-validator LLM
(`kognys/agents/input_validator.py::ValidatorResponse`). -/
structure ValidatorResponse where
  approved : Bool
  revised_question : String
  rejection_reason : String
deriving DecidableEq

/-- The structured output of the orchestrator LLM
(`kognys/agents/orchestrator.py::OrchestratorResponse`); `final_answer`
holds the full synthesis-stream concatenation used on `FINALIZE`. -/
structure OrchResponse where
  decision : String
  next_query : Option String
  final_answer : String
deriving DecidableEq

/-- Oracle for everything the nodes obtain from outside the state: LLM
structured outputs, search results, the run's `uuid4`, and Python `hash`. -/
structure Env where
  validatorResp : ValidatorResponse
  runUUID : String
  retrievedDocs : List Doc
  synthDraft : String
  challengerCrits : List String
  checklistSufficient : Bool
  summarizerContent : String
  orchResp : OrchResponse
  reviserQuery : String
  pyHash : String → Int

/-- Embeds `kognys/agents/input_validator.py::node`.  A rejected question
with no revised version raises `ValueError(rejection_reason)`; otherwise the
(possibly reformulated) question is validated and the run's task/paper ids
are set to the fresh uuid.  The `create_task`/`join_task` ledger calls have
no effect on the returned update and are modelled separately. -/
def input_validator_node (env : Env) (s : KognysState) :
    Except String StateUpdate :=
  let resp := env.validatorResp
  if resp.approved = false && (resp.revised_question = "" : Bool) then
    Except.error
      (if resp.rejection_reason = "" then "Question rejected by validator"
       else resp.rejection_reason)
  else
    let question :=
      if resp.approved = false then resp.revised_question else s.question
    Except.ok
      { StateUpdate.empty with
        validated_question :=
          some (some (if resp.revised_question = "" then question
                      else resp.revised_question)),
        paper_id := some (some env.runUUID),
        task_id := some (some env.runUUID),
        transcript := some (append_entry s.transcript "InputValidator"
          "Validated question & created on-chain task" none
          (some ("Task ID: " ++ env.runUUID))) }

/-- Embeds `kognys/agents/retriever.py::node`: the combined search results
come from the oracle; an empty result set becomes the routable
`retrieval_status = "No documents found"` rather than an error. -/
def retriever_node (env : Env) (s : KognysState) : StateUpdate :=
  let combined_docs := env.retrievedDocs
  let base :=
    if combined_docs = [] then
      { StateUpdate.empty with
        documents := some [],
        retrieval_status := some (some "No documents found") }
    else
      { StateUpdate.empty with
        documents := some combined_docs,
        retrieval_status := some (some "Documents found") }
  { base with
    transcript := some (append_entry s.transcript "Retriever"
      "Retrieved documents" (some (toString combined_docs.length ++ " docs"))
      none) }

/-- Embeds `kognys/agents/synthesizer.py::node` (the authoritative update). -/
def synthesizer_node (env : Env) (s : KognysState) : StateUpdate :=
  { StateUpdate.empty with
    draft_answer := some (some env.synthDraft),
    criticisms := some [],
    transcript := some (append_entry s.transcript "Synthesizer"
      ("Drafted answer v" ++ toString (s.revisions + 1)) none
      (some (toString (env.pyHash env.synthDraft)))) }

/-- Embeds the final (authoritative) yield of
`kognys/agents/challenger.py::node`. -/
def challenger_node (env : Env) (s : KognysState) : StateUpdate :=
  { StateUpdate.empty with
    criticisms := some env.challengerCrits,
    transcript := some (append_entry s.transcript "Challenger"
      "Generated criticisms" none
      (some (String.intercalate "\x0a" env.challengerCrits))) }

/-- Embeds `kognys/agents/checklist.py::node`: with no (truthy) draft it
returns `is_sufficient = False` outright, otherwise the LLM verdict.  Either
way the single key written, `is_sufficient`, is not a declared field of
`KognysState`. -/
def checklist_node (env : Env) (s : KognysState) : StateUpdate :=
  if truthyOpt s.draft_answer = false then
    { StateUpdate.empty with extra := [("is_sufficient", ExtraVal.boolVal false)] }
  else
    { StateUpdate.empty with
      extra := [("is_sufficient", ExtraVal.boolVal env.checklistSufficient)] }

/-- The hard-coded fallback answer of
`kognys/agents/orchestrator.py::node` for the no-documents path. -/
def noDocsAnswer : String :=
  "I am sorry, but I could not find any relevant information to answer your question."

/-- Embeds `kognys/agents/orchestrator.py::node` (the authoritative final
yield of the async generator): the direct fallback when retrieval found
nothing, else one of `RESEARCH_AGAIN`, `FINALIZE`, or `REVISE` (the catch-all
`else` branch). -/
def orchestrator_node (env : Env) (s : KognysState) : StateUpdate :=
  if s.retrieval_status = some "No documents found" then
    { StateUpdate.empty with
      final_answer := some (some noDocsAnswer),
      transcript := some (append_entry s.transcript "Orchestrator"
        "Made decision" none (some "No documents found")) }
  else if env.orchResp.decision = "RESEARCH_AGAIN" then
    { StateUpdate.empty with
      validated_question := some env.orchResp.next_query,
      refined_queries := some [],
      documents := some [],
      revisions := some (s.revisions + 1),
      transcript := some (append_entry s.transcript "Orchestrator"
        "Made decision" none (some env.orchResp.decision)) }
  else if env.orchResp.decision = "FINALIZE" then
    { StateUpdate.empty with
      final_answer := some (some env.orchResp.final_answer),
      transcript := some (append_entry s.transcript "Orchestrator"
        "Made decision" none (some env.orchResp.decision)) }
  else
    { StateUpdate.empty with
      revisions := some (s.revisions + 1),
      transcript := some (append_entry s.transcript "Orchestrator"
        "Made decision" none (some env.orchResp.decision)) }

/-- Embeds `kognys/agents/summarizer.py::node`: its only key,
`context_summary`, is not a declared field of `KognysState`. -/
def summarizer_node (env : Env) (s : KognysState) : StateUpdate :=
  { StateUpdate.empty with
    extra := [("context_summary", ExtraVal.strVal env.summarizerContent)] }

/-- Embeds `kognys/agents/reviser.py::node`. -/
def reviser_node (env : Env) (s : KognysState) : StateUpdate :=
  if s.criticisms = [] then StateUpdate.empty
  else
    { StateUpdate.empty with
      validated_question := some (some env.reviserQuery),
      documents := some [] }

/-- Embeds `kognys/agents/publisher.py::node`: with no truthy answer or a
failed retrieval it skips all storage and just passes `final_answer`
through; otherwise it stores/archives (external effects) and also writes the
undeclared `verifiable_data` key. -/
def publisher_node (env : Env) (s : KognysState) : StateUpdate :=
  if truthyOpt s.final_answer = false
      || (s.retrieval_status = some "No documents found" : Bool) then
    { StateUpdate.empty with final_answer := some s.final_answer }
  else
    { StateUpdate.empty with
      final_answer := some s.final_answer,
      extra := [("verifiable_data", ExtraVal.dictVal)],
      transcript := some (append_entry s.transcript "Publisher"
        "Stored, archived, and finished task" none none) }

/-- Errors the engine can surface: a node raising `ValueError`, or the
checklist router reading the undeclared `is_sufficient` attribute when no
node has produced it. -/
inductive KErr where
  | valueError (msg : String)
  | attributeMissing (name : String)
deriving DecidableEq

/-- Dispatch a node name to its embedded body, from the `add_node` calls in
`kognys/graph/builder.py`. -/
def runNode (env : Env) (name : String) (s : KognysState) :
    Except KErr StateUpdate :=
  match name with
  | "input_validator" =>
    match input_validator_node env s with
    | Except.error m => Except.error (KErr.valueError m)
    | Except.ok u => Except.ok u
  | "retriever" => Except.ok (retriever_node env s)
  | "synthesizer" => Except.ok (synthesizer_node env s)
  | "challenger" => Except.ok (challenger_node env s)
  | "checklist" => Except.ok (checklist_node env s)
  | "orchestrator" => Except.ok (orchestrator_node env s)
  | "publisher" => Except.ok (publisher_node env s)
  | "summarizer" => Except.ok (summarizer_node env s)
  | "reviser" => Except.ok (reviser_node env s)
  | _ => Except.ok StateUpdate.empty

/-- The routing decision after a node, combining the unconditional edges and
the two conditional routers of `kognys/graph/builder.py`; `ok none` is END.
The checklist router needs the undeclared `is_sufficient` value, read from
the extra store. -/
def nextNode (name : String) (s : KognysState) (ex : GExtra) :
    Except KErr (Option String) :=
  match name with
  | "retriever" => Except.ok (some (route_after_retrieval s))
  | "checklist" =>
    match List.lookup "is_sufficient" ex with
    | some (ExtraVal.boolVal b) => Except.ok (some (route_after_checklist b s))
    | _ => Except.error (KErr.attributeMissing "is_sufficient")
  | _ =>
    match staticEdge name with
    | some nxt => Except.ok nxt
    | none => Except.ok none

/-- The node-completion events `_emit_node_completion_event` of
`kognys/graph/unified_executor.py` emits, keyed on the completed node's
update dict. -/
def completionEvents (name : String) (u : StateUpdate) : List String :=
  if name = "input_validator" then
    if truthyOpt (u.validated_question.getD none) then ["question_validated"] else []
  else if name = "retriever" then
    if !(u.documents.getD [] = [] : Bool) then ["documents_retrieved"] else []
  else if name = "synthesizer" then
    if truthyOpt (u.draft_answer.getD none) then ["draft_generated"] else []
  else if name = "challenger" then
    if !(u.criticisms.getD [] = [] : Bool) then ["criticisms_received"] else []
  else if name = "orchestrator" then ["orchestrator_decision"]
  else if name = "publisher" then
    if truthyOpt (u.final_answer.getD none) then ["research_completed"] else []
  else []

/-- How a run ends: a terminal state (END reached), a propagated node
exception, or exhausted fuel.  The trace lists the nodes invoked, in order. -/
inductive RunOutcome where
  | finished (s : KognysState) (ex : GExtra) (trace : List String)
  | failed (e : KErr) (trace : List String)
  | outOfFuel (trace : List String)
deriving DecidableEq

/-- Modelled from the spec: the ExecutionEngine core loop (in the source this
is the external `langgraph` `StateGraph` runtime, not repository code): start
at the entry node, invoke the current node on the merged state, merge its
partial update per channel policy, consult the edge/router for the next node,
and stop at END; a node exception aborts the run with no further node
executed.  Fuel bounds the recursion; `evs` accumulates the completion events
the unified executor emits along the way. -/
def runFrom (env : Env) :
    Nat → String → KognysState → GExtra → List String → List String →
    RunOutcome × List String
  | 0, _, _, _, trace, evs => (RunOutcome.outOfFuel trace, evs)
  | Nat.succ fuel, name, s, ex, trace, evs =>
    match runNode env name s with
    | Except.error e => (RunOutcome.failed e (trace ++ [name]), evs)
    | Except.ok upd =>
      let p := applyUpdate s ex upd
      let trace' := trace ++ [name]
      let evs' := evs ++ completionEvents name upd
      match nextNode name p.1 p.2 with
      | Except.error e => (RunOutcome.failed e trace', evs')
      | Except.ok none => (RunOutcome.finished p.1 p.2 trace', evs')
      | Except.ok (some nxt) => runFrom env fuel nxt p.1 p.2 trace' evs'

/-- Embeds the observable behaviour of
`kognys/graph/unified_executor.py::UnifiedExecutor.execute_sync`: a
`research_started` event first, the per-node completion events during the
run, then on a propagated `ValueError` a terminal `validation_error` event
(any other exception yields a terminal `error` event) and the exception as
the blocking result; a finished run without a truthy `final_answer` and
without an emitted `research_completed` gets a trailing `research_failed`. -/
def execute_sync (env : Env) (fuel : Nat) (s0 : KognysState) :
    Except KErr (KognysState × GExtra) × List String :=
  match runFrom env fuel "input_validator" s0 [] [] [] with
  | (RunOutcome.failed e trace, evs) =>
    (Except.error e,
     ["research_started"] ++ evs ++
       [match e with
        | KErr.valueError _ => "validation_error"
        | _ => "error"])
  | (RunOutcome.finished s ex _, evs) =>
    (Except.ok (s, ex),
     ["research_started"] ++ evs ++
       (if truthyOpt s.final_answer then []
        else if List.elem "research_completed" evs then []
        else ["research_failed"]))
  | (RunOutcome.outOfFuel _, evs) =>
    (Except.error (KErr.valueError "out of fuel"),
     ["research_started"] ++ evs)

/-- A stored event of `UnifiedExecutor`: `event_type`, the source `agent`,
and the wall-clock timestamp (payload data omitted; no claim inspects it). -/
structure Event where
  event_type : String
  agent : Option String
  timestamp : ℚ
deriving DecidableEq

/-- The executor's event-bus state: the bounded recent-events buffer
(`_recent_events`, `_max_events = 100` at construction), the `_stop_event`
flag, and the number of registered callbacks. -/
structure ExecBus where
  recent_events : List Event
  max_events : Nat
  stopped : Bool
  callbacks : Nat
deriving DecidableEq

/-- A freshly constructed `UnifiedExecutor` with `n` callbacks registered. -/
def ExecBus.init (n : Nat) : ExecBus := ⟨[], 100, false, n⟩

/-- Embeds `kognys/graph/unified_executor.py::UnifiedExecutor._emit_event`:
builds the event, appends it to `_recent_events` unconditionally, pops the
oldest entry if the buffer exceeds `_max_events`, and, unless the stop flag
is set, invokes every registered callback with the event.  The returned
`Nat` is the number of callbacks the event was delivered to. -/
def emit_event (st : ExecBus) (event_type : String) (agent : Option String)
    (ts : ℚ) : ExecBus × Nat :=
  let e : Event := ⟨event_type, agent, ts⟩
  let stored := st.recent_events ++ [e]
  let stored := if st.max_events < stored.length then stored.tail else stored
  ({ st with recent_events := stored },
   if st.stopped then 0 else st.callbacks)

/-- The names bound at module scope in `kognys/graph/unified_executor.py`:
the imports of lines 11-18 plus the module's own top-level definitions. -/
def unifiedExecutorModuleNames : List String :=
  ["asyncio", "time", "threading", "AsyncGenerator", "Dict", "Any",
   "Callable", "Optional", "queue", "KognysState", "kognys_graph",
   "Runnable", "UnifiedExecutor", "unified_executor"]

/-- Python builtins referenced anywhere in `execute_streaming`. -/
def pythonBuiltinNames : List String :=
  ["print", "hash", "len", "hasattr", "isinstance", "str", "set",
   "ValueError", "Exception"]

/-- Every local name `execute_streaming` binds (parameters plus variables
assigned somewhere in its body) before or around the per-token branches. -/
def executeStreamingLocalNames : List String :=
  ["self", "initial_state", "config", "final_result", "event", "kind",
   "node_name", "chunk", "state_update", "latest", "content_hash", "e"]

/-- All names resolvable inside `execute_streaming`'s body. -/
def executeStreamingBoundNames : List String :=
  unifiedExecutorModuleNames ++ pythonBuiltinNames ++ executeStreamingLocalNames

/-- The names referenced by each per-token yield/deduplication branch of
`execute_streaming` (lines 314-353): the branch reads `chunk`, calls
`self._emit_event`, takes `self._events_lock` and `self._recent_events`,
binds and reads `latest` and `content_hash`, and evaluates
`hash(json.dumps(latest, sort_keys=True))` and
`content_hash not in events_yielded` / `events_yielded.add(...)`. -/
def executeStreamingTokenBranchRefs : List String :=
  ["chunk", "self", "latest", "content_hash", "hash", "json", "events_yielded"]

/-- A token bucket of `kognys/services/rate_limiter.py::RateLimiter`, float
fields modelled as rationals (`tokens`, `max_tokens = burst_size`,
`refill_rate = requests_per_second`, `last_refill`); the stats dict is
observability-only and not modelled. -/
structure Bucket where
  tokens : ℚ
  max_tokens : ℚ
  refill_rate : ℚ
  last_refill : ℚ
deriving DecidableEq

/-- Embeds `RateLimiter._refill_tokens`: add elapsed-time times refill rate,
capped at capacity, and stamp the refill time. -/
def refill_tokens (b : Bucket) (now : ℚ) : Bucket :=
  { b with
    tokens := min b.max_tokens (b.tokens + (now - b.last_refill) * b.refill_rate),
    last_refill := now }

/-- Request priorities (`rate_limiter.py::Priority`). -/
inductive Priority where
  | HIGH
  | NORMAL
  | LOW
deriving DecidableEq

/-- Embeds the `while self.tokens < 1` body of `RateLimiter.acquire`: compute
the wait for one token, scale it by the priority factor, sleep (modelled as
advancing the clock by exactly the computed wait), refill, and recheck; on
exit consume one token and return the elapsed time since `start`.  `fuel`
bounds the loop; the returned list records every computed sleep duration in
order.  When fuel runs out mid-loop the bucket reached so far is returned
with no wait result. -/
def acquireGo :
    Nat → Bucket → Priority → ℚ → ℚ → Bucket × Option ℚ × List ℚ
  | 0, b, _, _, _ => (b, none, [])
  | Nat.succ fuel, b, p, t, start =>
    if b.tokens < 1 then
      let tokens_needed : ℚ := 1 - b.tokens
      let wait_time := tokens_needed / b.refill_rate
      let wait_time :=
        if p = Priority.HIGH then wait_time * (1 / 2)
        else if p = Priority.LOW then wait_time * (3 / 2)
        else wait_time
      let t' := t + wait_time
      let r := acquireGo fuel (refill_tokens b t') p t' start
      (r.1, r.2.1, wait_time :: r.2.2)
    else
      ({ b with tokens := b.tokens - 1 }, some (t - start), [])

/-- Embeds `RateLimiter.acquire`: lazily refill at the current time, run the
wait loop, consume exactly one token on success, and report the duration
actually waited (clock on return minus clock on entry). -/
def acquire (fuel : Nat) (b : Bucket) (p : Priority) (now : ℚ) :
    Bucket × Option ℚ × List ℚ :=
  acquireGo fuel (refill_tokens b now) p now now

/-- One operation against a bucket, stamped with the monotonic-clock reading
at which it runs. -/
inductive BucketOp where
  | refillOp (now : ℚ)
  | acquireOp (fuel : Nat) (p : Priority) (now : ℚ)
deriving DecidableEq

/-- The clock reading an operation runs at. -/
def BucketOp.time : BucketOp → ℚ
  | BucketOp.refillOp now => now
  | BucketOp.acquireOp _ _ now => now

/-- Apply one operation to a bucket. -/
def applyOp (b : Bucket) : BucketOp → Bucket
  | BucketOp.refillOp now => refill_tokens b now
  | BucketOp.acquireOp fuel p now => (acquire fuel b p now).1

/-- A sequence of operations is valid when each runs at or after the
bucket's current refill stamp — exactly what `time.monotonic()` guarantees
in the source. -/
def validOps : Bucket → List BucketOp → Bool
  | _, [] => true
  | b, op :: rest =>
    decide (b.last_refill ≤ op.time) && validOps (applyOp b op) rest

/-- The bucket invariant of the spec: the token count stays within
`[0, capacity]`. -/
def BucketInv (b : Bucket) : Prop :=
  0 ≤ b.tokens ∧ b.tokens ≤ b.max_tokens

/-- The ways a `tasks/<id>/join` POST can fail
(`requests.exceptions.RequestException` responses classified by
`kognys/services/membase_client.py::join_task`): a 500 carrying
"nonce too low", a 404/500 carrying "does not exist" (the task not yet
visible on chain), or anything else. -/
inductive JoinFailure where
  | nonceTooLow
  | taskNotVisible
  | other (code : String)
deriving DecidableEq

/-- Which failures `join_task` retries (`is_nonce_error or
is_race_condition_error`). -/
def joinRetryable : JoinFailure → Bool
  | JoinFailure.nonceTooLow => true
  | JoinFailure.taskNotVisible => true
  | JoinFailure.other _ => false

/-- Embeds the `for attempt in range(max_retries)` loop of
`membase_client.py::join_task`: `outcome i = none` means the POST of attempt
`i` succeeded, `some e` that it failed with `e`.  A retryable failure with
attempts remaining sleeps (backoff elided) and continues; anything else
returns `False`; falling off the loop returns `False`. -/
def joinLoopGo (outcome : Nat → Option JoinFailure) :
    Nat → Nat → Bool
  | 0, _ => false
  | Nat.succ rem, attempt =>
    match outcome attempt with
    | none => true
    | some e =>
      if joinRetryable e && decide (0 < rem) then
        joinLoopGo outcome rem (attempt + 1)
      else false

/-- The loop entered at `attempt`, with `max_retries - attempt` iterations
left; `joinLoopGo`'s first argument is that remaining count, so
`attempt < max_retries` is `0 < remaining` and the source's
`attempt < max_retries - 1` is `1 < remaining`. -/
def joinAttemptLoop (outcome : Nat → Option JoinFailure)
    (max_retries : Nat) (attempt : Nat) : Bool :=
  joinLoopGo outcome (max_retries - attempt) attempt

/-- Embeds the pre-join visibility poll of `join_task`: up to ten one-second
polls of `check_task_exists`; the `for ... else` returns `False` when the
task never became visible. -/
def waitForTaskVisible (existsAt : Nat → Bool) : Bool :=
  (List.range 10).any existsAt

/-- Embeds `membase_client.py::join_task` end to end: configuration guards,
the bounded visibility poll for the precondition, then the bounded retry
loop; every path returns a boolean, never an exception. -/
def join_task (apiConfigured : Bool) (agent_id : String)
    (existsAt : Nat → Bool) (outcome : Nat → Option JoinFailure)
    (max_retries : Nat) : Bool :=
  if apiConfigured = false then false
  else if agent_id = "" then false
  else if waitForTaskVisible existsAt = false then false
  else joinAttemptLoop outcome max_retries 0

/-- The failures `create_task` classifies, and which it retries (only
`nonce too low`). -/
def createRetryable : JoinFailure → Bool
  | JoinFailure.nonceTooLow => true
  | _ => false

/-- Embeds the retry loop of `membase_client.py::create_task`: same shape as
the join loop but retrying only nonce errors. -/
def createLoopGo (outcome : Nat → Option JoinFailure) :
    Nat → Nat → Bool
  | 0, _ => false
  | Nat.succ rem, attempt =>
    match outcome attempt with
    | none => true
    | some e =>
      if createRetryable e && decide (0 < rem) then
        createLoopGo outcome rem (attempt + 1)
      else false

/-- The `create_task` loop entered at `attempt`, mirroring
`joinAttemptLoop`'s remaining-count encoding. -/
def createAttemptLoop (outcome : Nat → Option JoinFailure)
    (max_retries : Nat) (attempt : Nat) : Bool :=
  createLoopGo outcome (max_retries - attempt) attempt

/-- A concrete oracle used by several concrete evaluations: an approved
question, no search results, and fixed LLM outputs. -/
def envA : Env :=
  ⟨⟨true, "", ""⟩, "uuid-1", [], "a draft", [], false, "a summary",
   ⟨"FINALIZE", none, "a final answer"⟩, "a revised query", fun _ => 0⟩

/-- The state of a run that has exceeded any reasonable revision cap while
the checklist found the draft insufficient with a criticism that mentions
the sources. -/
def c1CexState : KognysState :=
  { initialState "q" none with
    revisions := 3,
    criticisms := ["The draft needs more supporting documents"] }

/-- Claim C1 counterexample: with the revision counter at 3 — beyond the
cap of 2 that the orchestrator prompt names — the routing decision after the
checklist is `reviser`, not the finalize node `orchestrator`: the engine's
routing does not force a transition to the finalize node when the cap is
exceeded. -/
theorem c1_cex_route_not_forced_to_finalize :
    2 < c1CexState.revisions ∧
    route_after_checklist false c1CexState = "reviser" ∧
    route_after_checklist false c1CexState ≠ "orchestrator" := by
  refine ⟨by decide, by decide, by decide⟩

/-- Claim C1 (amended): the engine's routing enforces no revision cap at
all — `route_after_checklist` is invariant under arbitrary changes of the
revision counter, reading only `is_sufficient` and the criticisms; the cap
of 2 revisions lives solely in the orchestrator node's prompt (business
logic). -/
theorem c1_routing_ignores_revision_counter (b : Bool) (s : KognysState)
    (r : Nat) :
    route_after_checklist b { s with revisions := r } =
      route_after_checklist b s := rfl

/-- A run state in which the checklist just reported the draft insufficient
while the revision counter is 0, with a criticism mentioning neither
documents nor sources. -/
def c9CexState : KognysState :=
  { initialState "q" none with
    draft_answer := some "a draft",
    criticisms := ["The answer is too vague"],
    revisions := 0 }

/-- Claim C9 counterexample: at revision count 0 with an insufficient
draft, the run routes to `summarizer` (reaching the synthesizer only through
the fixed `summarizer -> synthesizer` edge), and after the summarizer and
synthesizer updates the revision counter is still 0, not 1: nothing on that
loop increments it. -/
theorem c9_cex_revisions_stay_zero :
    route_after_checklist false c9CexState = "summarizer" ∧
    c9CexState.revisions = 0 ∧
    ((applyUpdate
        (applyUpdate c9CexState [] (summarizer_node envA c9CexState)).1
        (applyUpdate c9CexState [] (summarizer_node envA c9CexState)).2
        (synthesizer_node envA
          (applyUpdate c9CexState [] (summarizer_node envA c9CexState)).1)).1.revisions
      = 0) ∧ (0 : Nat) ≠ 1 := by
  refine ⟨by decide, rfl, by decide, by decide⟩

/-- Claim C9 (amended): when the checklist reports the draft insufficient
and no criticism mentions documents or sources, the run routes to the
summarizer node, whose only outgoing edge leads back to the synthesizer; the
revision counter is unchanged by both node updates on that loop (it is
incremented only by the orchestrator node). -/
theorem c9_insufficient_loops_without_incrementing (s : KognysState)
    (env : Env) (ex : GExtra)
    (h : s.criticisms.any
      (fun c => strContains (strToLower c) "documents" ||
        strContains (strToLower c) "sources") = false) :
    route_after_checklist false s = "summarizer" ∧
    staticEdge "summarizer" = some (some "synthesizer") ∧
    (applyUpdate
        (applyUpdate s ex (summarizer_node env s)).1
        (applyUpdate s ex (summarizer_node env s)).2
        (synthesizer_node env (applyUpdate s ex (summarizer_node env s)).1)).1.revisions
      = s.revisions := by
  refine ⟨?_, rfl, ?_⟩
  · simp [route_after_checklist, h]
  · simp [applyUpdate, summarizer_node, synthesizer_node, StateUpdate.empty]

/-- Witness for the amended claim C9 at a concrete insufficient state. -/
theorem c9_witness :
    route_after_checklist false c9CexState = "summarizer" ∧
    staticEdge "summarizer" = some (some "synthesizer") ∧
    (applyUpdate
        (applyUpdate c9CexState [] (summarizer_node envA c9CexState)).1
        (applyUpdate c9CexState [] (summarizer_node envA c9CexState)).2
        (synthesizer_node envA
          (applyUpdate c9CexState [] (summarizer_node envA c9CexState)).1)).1.revisions
      = c9CexState.revisions :=
  c9_insufficient_loops_without_incrementing c9CexState envA [] (by decide)

/-- Claim C8: it is not the case that every node writes only declared state
fields — the checklist node's update always carries exactly the key
`is_sufficient`, and the summarizer node's exactly `context_summary`,
neither of which is declared in `KognysState`; yet `route_after_checklist`
in the graph builder reads `state.is_sufficient`, so the code depends on an
undeclared channel. -/
theorem c8_nodes_write_undeclared_fields (env : Env) (s : KognysState) :
    updateKeys (checklist_node env s) = ["is_sufficient"] ∧
    "is_sufficient" ∉ kognysStateFields ∧
    updateKeys (summarizer_node env s) = ["context_summary"] ∧
    "context_summary" ∉ kognysStateFields := by
  refine ⟨?_, by decide, ?_, by decide⟩
  · by_cases h : truthyOpt s.draft_answer = false <;>
      simp [checklist_node, h, updateKeys, StateUpdate.empty]
  · simp [summarizer_node, updateKeys, StateUpdate.empty]

/-- Claim C10: the per-token branches of `execute_streaming` reference the
names `json` and `events_yielded`, but neither is bound anywhere in scope
(module imports, builtins, or locals of the function), so processing any
token chunk hits an unbound name instead of yielding the event. -/
theorem c10_streaming_token_branch_unbound_names :
    "json" ∈ executeStreamingTokenBranchRefs ∧
    "json" ∉ executeStreamingBoundNames ∧
    "events_yielded" ∈ executeStreamingTokenBranchRefs ∧
    "events_yielded" ∉ executeStreamingBoundNames := by
  decide

/-- A bus whose most recent event has type `draft_answer_token` from agent
`synthesizer`. -/
def c2CexBus : ExecBus :=
  ⟨[⟨"draft_answer_token", some "synthesizer", 0⟩], 100, false, 2⟩

/-- Claim C2 counterexample: emitting an event whose `(type, agent)` pair is
identical to the immediately preceding event stores it anyway and delivers
it to both registered callbacks — `_emit_event` performs no duplicate
suppression at all. -/
theorem c2_cex_duplicate_not_dropped :
    (emit_event c2CexBus "draft_answer_token" (some "synthesizer") 1).1.recent_events =
      [⟨"draft_answer_token", some "synthesizer", 0⟩,
       ⟨"draft_answer_token", some "synthesizer", 1⟩] ∧
    (emit_event c2CexBus "draft_answer_token" (some "synthesizer") 1).2 = 2 := by
  constructor <;> rfl

/-- Claim C2 (amended): `_emit_event` never compares a new event against the
previously emitted one — every event, including one whose `(type, agent)`
matches the immediately preceding event, is appended to the (bounded)
recent-events buffer and delivered to every registered callback whenever the
stop flag is unset. -/
theorem c2_emit_never_suppresses (st : ExecBus) (ty : String)
    (ag : Option String) (ts : ℚ)
    (hmax : 0 < st.max_events) :
    (emit_event st ty ag ts).1.recent_events.getLast? = some ⟨ty, ag, ts⟩ ∧
    (emit_event st ty ag ts).2 = (if st.stopped then 0 else st.callbacks) := by
  constructor
  · unfold emit_event
    by_cases h : st.max_events < (st.recent_events ++ [(⟨ty, ag, ts⟩ : Event)]).length
    · simp only [h, if_true]
      rcases hE : st.recent_events with _ | ⟨a, l⟩
      · rw [hE] at h
        simp at h
        omega
      · simp
    · simp only [h, if_false]
      simp
  · rfl

/-- Witness for the amended claim C2: a concrete emit on a bus whose buffer
holds one event of the same `(type, agent)`. -/
theorem c2_witness :
    (emit_event c2CexBus "heartbeat" (some "system") 2).1.recent_events.getLast? =
      some ⟨"heartbeat", some "system", 2⟩ ∧
    (emit_event c2CexBus "heartbeat" (some "system") 2).2 =
      (if c2CexBus.stopped then 0 else c2CexBus.callbacks) :=
  c2_emit_never_suppresses c2CexBus "heartbeat" (some "system") 2 (by decide)

/-- If the attempt at index `k` succeeds, every earlier attempt from `a` on
fails retryably, and at least `k - a + 1` iterations remain, the join retry
loop reports success. -/
theorem joinLoopGo_reaches_success (outcome : Nat → Option JoinFailure)
    (k : Nat) :
    ∀ rem a, a ≤ k → k < a + rem →
    (∀ i, a ≤ i → i < k → ∃ e, outcome i = some e ∧ joinRetryable e = true) →
    outcome k = none →
    joinLoopGo outcome rem a = true := by
  intro rem
  induction rem with
  | zero =>
    intro a hak hlt _ _
    omega
  | succ r ih =>
    intro a hak hlt hfail hsucc
    by_cases hEq : a = k
    · subst hEq
      simp [joinLoopGo, hsucc]
    · obtain ⟨e, he, hre⟩ := hfail a le_rfl (by omega)
      have hr : 0 < r := by omega
      simp only [joinLoopGo, he, hre, hr, decide_eq_true_eq, Bool.true_and,
        if_true]
      exact ih (a + 1) (by omega) (by omega)
        (fun i hi hik => hfail i (by omega) hik) hsucc

/-- If every attempt within the remaining budget fails retryably, the join
retry loop reports failure (a boolean, not an exception). -/
theorem joinLoopGo_exhausts (outcome : Nat → Option JoinFailure) :
    ∀ rem a,
    (∀ i, a ≤ i → i < a + rem → ∃ e, outcome i = some e ∧ joinRetryable e = true) →
    joinLoopGo outcome rem a = false := by
  intro rem
  induction rem with
  | zero =>
    intro a _
    rfl
  | succ r ih =>
    intro a hfail
    obtain ⟨e, he, hre⟩ := hfail a le_rfl (by omega)
    by_cases hr : 0 < r
    · simp only [joinLoopGo, he, hre, hr, decide_eq_true_eq, Bool.true_and,
        if_true]
      exact ih (a + 1) (fun i hi hik => hfail i (by omega) (by omega))
    · have : r = 0 := by omega
      subst this
      simp [joinLoopGo, he, hre]

/-- Claim C3: the bounded ledger retry wrapper.  First: if the POST fails
retryably on exactly the first `k < maxAttempts` attempts and succeeds on
attempt `k + 1`, `join_task`'s retry loop reports success.  Second: if every
one of the `maxAttempts` attempts fails retryably, it returns the typed
failure `false` (all paths return a boolean; nothing is raised).  Third, the
spec's scenario: a join whose POST fails twice with the not-yet-visible
race error and succeeds on the third attempt, with `max_retries = 3` and the
precondition poll finding the task, reports overall success; and
`create_task`'s analogous loop retries a nonce error and succeeds. -/
theorem c3_retry_reports_success_then_typed_failure
    (k max_retries : Nat) (outcome : Nat → Option JoinFailure)
    (hk : k < max_retries)
    (hfail : ∀ i, i < k → ∃ e, outcome i = some e ∧ joinRetryable e = true)
    (hsucc : outcome k = none) :
    joinAttemptLoop outcome max_retries 0 = true ∧
    (∀ outcome2 : Nat → Option JoinFailure,
      (∀ i, i < max_retries →
        ∃ e, outcome2 i = some e ∧ joinRetryable e = true) →
      joinAttemptLoop outcome2 max_retries 0 = false) ∧
    join_task true "agent-1" (fun _ => true)
      (fun i => if i < 2 then some JoinFailure.taskNotVisible else none) 3
      = true ∧
    createAttemptLoop
      (fun i => if i = 0 then some JoinFailure.nonceTooLow else none) 3 0
      = true := by
  refine ⟨?_, ?_, by decide, by decide⟩
  · unfold joinAttemptLoop
    exact joinLoopGo_reaches_success outcome k (max_retries - 0) 0
      (by omega) (by omega) (fun i _ hik => hfail i hik) hsucc
  · intro outcome2 hall
    unfold joinAttemptLoop
    exact joinLoopGo_exhausts outcome2 (max_retries - 0) 0
      (fun i _ hik => hall i (by omega))

/-- Witness for claim C3: two not-yet-visible failures then success within
`max_retries = 3`. -/
theorem c3_witness :
    joinAttemptLoop
      (fun i => if i < 2 then some JoinFailure.taskNotVisible else none) 3 0
      = true := by
  have h := c3_retry_reports_success_then_typed_failure 2 3
    (fun i => if i < 2 then some JoinFailure.taskNotVisible else none)
    (by decide)
    (by
      intro i hi
      refine ⟨JoinFailure.taskNotVisible, ?_, rfl⟩
      simp [hi])
    (by decide)
  exact h.1

/-- Lazy refill preserves the token bounds whenever the clock has not gone
backwards (which `time.monotonic()` guarantees). -/
theorem refill_tokens_inv (b : Bucket) (now : ℚ) (hInv : BucketInv b)
    (hrate : 0 ≤ b.refill_rate) (hnow : b.last_refill ≤ now) :
    BucketInv (refill_tokens b now) := by
  obtain ⟨h0, h1⟩ := hInv
  unfold BucketInv refill_tokens
  dsimp only
  constructor
  · exact le_min (le_trans h0 h1)
      (add_nonneg h0 (mul_nonneg (sub_nonneg.mpr hnow) hrate))
  · exact min_le_left _ _

/-- The acquire loop preserves the token bounds and the bucket's
configuration, and never moves the refill stamp backwards. -/
theorem acquireGo_preserves (p : Priority) :
    ∀ (fuel : Nat) (b : Bucket) (t start : ℚ),
    BucketInv b → 0 < b.refill_rate → b.last_refill ≤ t →
    BucketInv (acquireGo fuel b p t start).1 ∧
    (acquireGo fuel b p t start).1.max_tokens = b.max_tokens ∧
    (acquireGo fuel b p t start).1.refill_rate = b.refill_rate ∧
    b.last_refill ≤ (acquireGo fuel b p t start).1.last_refill := by
  intro fuel
  induction fuel with
  | zero =>
    intro b t start hInv _ _
    exact ⟨hInv, rfl, rfl, le_rfl⟩
  | succ f ih =>
    intro b t start hInv hr hl
    by_cases hlt : b.tokens < 1
    · have hw0 : 0 ≤ (1 - b.tokens) / b.refill_rate :=
        div_nonneg (by linarith) hr.le
      have hw : 0 ≤
          (if p = Priority.HIGH then (1 - b.tokens) / b.refill_rate * (1 / 2)
           else if p = Priority.LOW then (1 - b.tokens) / b.refill_rate * (3 / 2)
           else (1 - b.tokens) / b.refill_rate) := by
        rcases p <;> simp <;> positivity
      simp only [acquireGo, if_pos hlt]
      set w := (if p = Priority.HIGH then (1 - b.tokens) / b.refill_rate * (1 / 2)
        else if p = Priority.LOW then (1 - b.tokens) / b.refill_rate * (3 / 2)
        else (1 - b.tokens) / b.refill_rate) with hwdef
      have hInv2 : BucketInv (refill_tokens b (t + w)) :=
        refill_tokens_inv b (t + w) hInv hr.le (by linarith)
      have hrec := ih (refill_tokens b (t + w)) (t + w) start hInv2 hr le_rfl
      refine ⟨hrec.1, hrec.2.1, hrec.2.2.1, ?_⟩
      exact le_trans (show b.last_refill ≤ t + w by linarith) hrec.2.2.2
    · simp only [acquireGo, if_neg hlt]
      have h1 : 1 ≤ b.tokens := not_lt.mp hlt
      refine ⟨⟨?_, ?_⟩, by simp, by simp, by simp⟩
      · show (0 : ℚ) ≤ b.tokens - 1
        linarith
      · show b.tokens - 1 ≤ b.max_tokens
        linarith [hInv.2]

/-- One operation keeps the invariant and the bucket's refill rate. -/
theorem applyOp_preserves (b : Bucket) (op : BucketOp)
    (hInv : BucketInv b) (hr : 0 < b.refill_rate)
    (hv : b.last_refill ≤ op.time) :
    BucketInv (applyOp b op) ∧ (applyOp b op).refill_rate = b.refill_rate := by
  cases op with
  | refillOp now =>
    exact ⟨refill_tokens_inv b now hInv hr.le hv, rfl⟩
  | acquireOp fuel p now =>
    have h1 : BucketInv (refill_tokens b now) :=
      refill_tokens_inv b now hInv hr.le hv
    have h2 := acquireGo_preserves p fuel (refill_tokens b now) now now h1 hr le_rfl
    exact ⟨h2.1, h2.2.2.1⟩

/-- Claim C4: across any valid (monotonically clocked) sequence of refill
and acquire operations, the bucket's token count never drops below 0 —
`acquire` consumes a token only after the availability check `tokens >= 1`
passes — and never exceeds the bucket's capacity, because every refill caps
at `max_tokens`. -/
theorem c4_token_bucket_bounds (b : Bucket) (ops : List BucketOp)
    (hInv : BucketInv b) (hr : 0 < b.refill_rate)
    (hv : validOps b ops = true) :
    BucketInv (ops.foldl applyOp b) := by
  induction ops generalizing b with
  | nil => exact hInv
  | cons op rest ih =>
    simp only [validOps, Bool.and_eq_true, decide_eq_true_eq] at hv
    obtain ⟨ht, hrest⟩ := hv
    have h := applyOp_preserves b op hInv hr ht
    simpa using ih (applyOp b op) h.1 (h.2 ▸ hr) hrest

/-- Witness for claim C4: a full bucket of capacity 2 at rate 1, drained
once, refilled at 5 seconds, drained again, stays in bounds. -/
theorem c4_witness :
    BucketInv
      ([BucketOp.acquireOp 1 Priority.NORMAL 0,
        BucketOp.refillOp 5,
        BucketOp.acquireOp 1 Priority.NORMAL 5].foldl applyOp
        ⟨2, 2, 1, 0⟩) := by
  apply c4_token_bucket_bounds ⟨2, 2, 1, 0⟩ _ ?_ ?_ ?_
  · constructor <;> norm_num
  · norm_num
  · simp [validOps, applyOp, acquire, acquireGo, refill_tokens, BucketOp.time]

/-- Whenever the acquire loop returns, the reported wait equals the clock
travelled since `start`: the elapsed offset plus the sum of all sleeps. -/
theorem acquireGo_wait_is_elapsed (p : Priority) :
    ∀ (fuel : Nat) (b : Bucket) (t start : ℚ) (r : Bucket) (w : ℚ)
      (ws : List ℚ),
    acquireGo fuel b p t start = (r, some w, ws) →
    w = (t - start) + ws.sum := by
  intro fuel
  induction fuel with
  | zero =>
    intro b t start r w ws h
    simp [acquireGo] at h
  | succ f ih =>
    intro b t start r w ws h
    by_cases hlt : b.tokens < 1
    · simp only [acquireGo, if_pos hlt] at h
      set w0 := (if p = Priority.HIGH then (1 - b.tokens) / b.refill_rate * (1 / 2)
        else if p = Priority.LOW then (1 - b.tokens) / b.refill_rate * (3 / 2)
        else (1 - b.tokens) / b.refill_rate) with hw0
      rcases hR : acquireGo f (refill_tokens b (t + w0)) p (t + w0) start with
        ⟨r1, ow, ws1⟩
      rw [hR] at h
      simp only [Prod.mk.injEq] at h
      obtain ⟨hr1, how, hws⟩ := h
      subst hws
      rw [how] at hR
      have hrec := ih (refill_tokens b (t + w0)) (t + w0) start r1 w ws1 hR
      simp only [List.sum_cons]
      linarith
    · simp only [acquireGo, if_neg hlt, Prod.mk.injEq,
        Option.some.injEq] at h
      obtain ⟨hr1, how, hws⟩ := h
      subst hws
      simp only [List.sum_nil]
      linarith

/-- Whenever the acquire loop returns, the final bucket holds exactly one
token fewer than the count that passed the availability check (which was at
least one token): exactly one token is consumed per successful acquire. -/
theorem acquireGo_consumes_one (p : Priority) :
    ∀ (fuel : Nat) (b : Bucket) (t start : ℚ) (r : Bucket) (w : ℚ)
      (ws : List ℚ),
    acquireGo fuel b p t start = (r, some w, ws) →
    ∃ pre : ℚ, 1 ≤ pre ∧ r.tokens = pre - 1 := by
  intro fuel
  induction fuel with
  | zero =>
    intro b t start r w ws h
    simp [acquireGo] at h
  | succ f ih =>
    intro b t start r w ws h
    by_cases hlt : b.tokens < 1
    · simp only [acquireGo, if_pos hlt] at h
      set w0 := (if p = Priority.HIGH then (1 - b.tokens) / b.refill_rate * (1 / 2)
        else if p = Priority.LOW then (1 - b.tokens) / b.refill_rate * (3 / 2)
        else (1 - b.tokens) / b.refill_rate) with hw0
      rcases hR : acquireGo f (refill_tokens b (t + w0)) p (t + w0) start with
        ⟨r1, ow, ws1⟩
      rw [hR] at h
      simp only [Prod.mk.injEq] at h
      obtain ⟨hr1, how, hws⟩ := h
      rw [how] at hR
      subst hr1
      exact ih _ _ _ _ _ _ hR
    · simp only [acquireGo, if_neg hlt, Prod.mk.injEq,
        Option.some.injEq] at h
      obtain ⟨hr1, _, _⟩ := h
      subst hr1
      exact ⟨b.tokens, not_lt.mp hlt, rfl⟩

/-- When the availability check fails, the first sleep the loop computes is
the one-token wait scaled by the priority factor. -/
theorem acquireGo_head_wait (p : Priority) (fuel : Nat) (b : Bucket)
    (t start : ℚ) (h : b.tokens < 1) :
    (acquireGo (fuel + 1) b p t start).2.2.head? =
      some (if p = Priority.HIGH then (1 - b.tokens) / b.refill_rate * (1 / 2)
        else if p = Priority.LOW then (1 - b.tokens) / b.refill_rate * (3 / 2)
        else (1 - b.tokens) / b.refill_rate) := by
  simp [acquireGo, if_pos h]

/-- Refilling at the very moment of the last refill adds nothing (the
elapsed time is zero and the count is already within capacity). -/
theorem refill_tokens_noop (t maxT rate t0 : ℚ) (h1 : t < 1) (hm : 1 ≤ maxT) :
    refill_tokens ⟨t, maxT, rate, t0⟩ t0 = ⟨t, maxT, rate, t0⟩ := by
  simp [refill_tokens, Bucket.mk.injEq]
  exact le_trans h1.le hm

/-- A full evaluation of `acquire` at normal priority on a bucket holding
under one token: one sleep of exactly `(1 - tokens) / rate`, a refill to one
token, consumption of that token, and a reported wait equal to the sleep. -/
theorem acquire_normal_insufficient (t maxT rate t0 : ℚ)
    (h1 : t < 1) (hm : 1 ≤ maxT) (hr : 0 < rate) :
    acquire 2 ⟨t, maxT, rate, t0⟩ Priority.NORMAL t0 =
      (⟨0, maxT, rate, t0 + (1 - t) / rate⟩, some ((1 - t) / rate),
       [(1 - t) / rate]) := by
  have hw : (1 - t) / rate * rate = 1 - t := div_mul_cancel₀ _ (ne_of_gt hr)
  have e2 : refill_tokens ⟨t, maxT, rate, t0⟩ (t0 + (1 - t) / rate) =
      ⟨1, maxT, rate, t0 + (1 - t) / rate⟩ := by
    simp [refill_tokens, Bucket.mk.injEq]
    rw [hw, show t + (1 - t) = 1 by ring]
    exact min_eq_right hm
  unfold acquire
  rw [refill_tokens_noop t maxT rate t0 h1 hm]
  simp only [acquireGo, if_pos h1]
  simp only [show (Priority.NORMAL = Priority.HIGH) = False by simp,
    show (Priority.NORMAL = Priority.LOW) = False by simp, if_false]
  rw [e2]
  norm_num

/-- Claim C5: `acquire` on a bucket with fewer than one token computes the
sleep `(1 - tokens) / refill_rate` scaled by the priority factor — 1 for
normal, 1/2 for high, 3/2 for low; at normal priority the call sleeps
exactly once, consumes exactly one token (ending at zero), and returns a
waited duration equal to that sleep; and in general any successful acquire
returns a waited duration equal to the sum of its sleeps and ends with
exactly one token fewer than the count that passed the availability
check. -/
theorem c5_acquire_priority_scaled_wait (t maxT rate t0 : ℚ)
    (h1 : t < 1) (hm : 1 ≤ maxT) (hr : 0 < rate) :
    acquire 2 ⟨t, maxT, rate, t0⟩ Priority.NORMAL t0 =
      (⟨0, maxT, rate, t0 + (1 - t) / rate⟩, some ((1 - t) / rate),
       [(1 - t) / rate]) ∧
    (acquire 2 ⟨t, maxT, rate, t0⟩ Priority.HIGH t0).2.2.head? =
      some ((1 - t) / rate * (1 / 2)) ∧
    (acquire 2 ⟨t, maxT, rate, t0⟩ Priority.LOW t0).2.2.head? =
      some ((1 - t) / rate * (3 / 2)) ∧
    (∀ (fuel : Nat) (p : Priority) (r : Bucket) (w : ℚ) (ws : List ℚ),
      acquire fuel ⟨t, maxT, rate, t0⟩ p t0 = (r, some w, ws) →
      w = ws.sum ∧ ∃ pre : ℚ, 1 ≤ pre ∧ r.tokens = pre - 1) := by
  refine ⟨acquire_normal_insufficient t maxT rate t0 h1 hm hr, ?_, ?_, ?_⟩
  · unfold acquire
    rw [refill_tokens_noop t maxT rate t0 h1 hm]
    have := acquireGo_head_wait Priority.HIGH 1 ⟨t, maxT, rate, t0⟩ t0 t0 h1
    simpa using this
  · unfold acquire
    rw [refill_tokens_noop t maxT rate t0 h1 hm]
    have := acquireGo_head_wait Priority.LOW 1 ⟨t, maxT, rate, t0⟩ t0 t0 h1
    simpa using this
  · intro fuel p r w ws hacq
    unfold acquire at hacq
    constructor
    · have := acquireGo_wait_is_elapsed p fuel _ t0 t0 r w ws hacq
      simpa using this
    · exact acquireGo_consumes_one p fuel _ t0 t0 r w ws hacq

/-- Witness for claim C5: a bucket holding half a token, with capacity 2 and
refill rate 1. -/
theorem c5_witness :
    acquire 2 ⟨1/2, 2, 1, 0⟩ Priority.NORMAL 0 =
      (⟨0, 2, 1, 0 + (1 - 1/2) / 1⟩, some ((1 - 1/2) / 1),
       [(1 - 1/2) / 1]) ∧
    (acquire 2 ⟨1/2, 2, 1, 0⟩ Priority.HIGH 0).2.2.head? =
      some ((1 - 1/2) / 1 * (1 / 2)) ∧
    (acquire 2 ⟨1/2, 2, 1, 0⟩ Priority.LOW 0).2.2.head? =
      some ((1 - 1/2) / 1 * (3 / 2)) ∧
    (∀ (fuel : Nat) (p : Priority) (r : Bucket) (w : ℚ) (ws : List ℚ),
      acquire fuel ⟨1/2, 2, 1, 0⟩ p 0 = (r, some w, ws) →
      w = ws.sum ∧ ∃ pre : ℚ, 1 ≤ pre ∧ r.tokens = pre - 1) :=
  c5_acquire_priority_scaled_wait (1/2) 2 1 0 (by norm_num) (by norm_num)
    (by norm_num)

/-- The `ValueError` message `input_validator` raises for a rejected
question with no revised version. -/
def rejectionMsg (env : Env) : String :=
  if env.validatorResp.rejection_reason = "" then
    "Question rejected by validator"
  else env.validatorResp.rejection_reason

/-- Claim C6: when the entry (validation) node rejects the question with no
revised version — the fatal path — the run aborts after exactly that one
node invocation (the trace is `["input_validator"]`, no further node runs),
and `execute_sync` returns the error as the blocking result while emitting
the terminal `validation_error` event as the last event of the stream. -/
theorem c6_fatal_validation_aborts (env : Env) (fuel : Nat)
    (s0 : KognysState)
    (hA : env.validatorResp.approved = false)
    (hV : env.validatorResp.revised_question = "") :
    runFrom env (fuel + 1) "input_validator" s0 [] [] [] =
      (RunOutcome.failed (KErr.valueError (rejectionMsg env))
        ["input_validator"], []) ∧
    execute_sync env (fuel + 1) s0 =
      (Except.error (KErr.valueError (rejectionMsg env)),
       ["research_started", "validation_error"]) := by
  have hnode : runNode env "input_validator" s0 =
      Except.error (KErr.valueError (rejectionMsg env)) := by
    simp [runNode, input_validator_node, hA, hV, rejectionMsg]
  have h1 : runFrom env (fuel + 1) "input_validator" s0 [] [] [] =
      (RunOutcome.failed (KErr.valueError (rejectionMsg env))
        ["input_validator"], []) := by
    simp [runFrom, hnode]
  refine ⟨h1, ?_⟩
  simp [execute_sync, h1]

/-- An oracle whose validator rejects the question outright. -/
def c6Env : Env :=
  ⟨⟨false, "", "Question is out of scope"⟩, "uuid-6", [], "", [], false, "",
   ⟨"", none, ""⟩, "", fun _ => 0⟩

/-- Witness for claim C6 at a concrete rejecting validator. -/
theorem c6_witness :
    runFrom c6Env 1 "input_validator" (initialState "q" none) [] [] [] =
      (RunOutcome.failed (KErr.valueError (rejectionMsg c6Env))
        ["input_validator"], []) ∧
    execute_sync c6Env 1 (initialState "q" none) =
      (Except.error (KErr.valueError (rejectionMsg c6Env)),
       ["research_started", "validation_error"]) :=
  c6_fatal_validation_aborts c6Env 0 (initialState "q" none) rfl rfl

/-- Claim C7: when retrieval produces no documents, the recoverable
condition becomes the routable field `retrieval_status = "No documents
found"`, which `route_after_retrieval` consumes to route straight to the
fallback node `orchestrator` — the trace is validator, retriever,
orchestrator, publisher, skipping the synthesis path entirely — and the run
still finishes (it is not `failed`) in a terminal state whose final answer
is the orchestrator's non-error fallback text. -/
theorem c7_empty_retrieval_routes_to_fallback (q : String)
    (uid : Option String) (env : Env) (k : Nat)
    (hA : env.validatorResp.approved = true)
    (hD : env.retrievedDocs = []) :
    ∃ s ex,
      (runFrom env (k + 4) "input_validator" (initialState q uid) [] [] []).1 =
        RunOutcome.finished s ex
          ["input_validator", "retriever", "orchestrator", "publisher"] ∧
      s.retrieval_status = some "No documents found" ∧
      route_after_retrieval s = "orchestrator" ∧
      s.final_answer = some noDocsAnswer := by
  refine ⟨
    { question := q, user_id := uid,
      paper_id := some env.runUUID, task_id := some env.runUUID,
      validated_question :=
        some (if env.validatorResp.revised_question = "" then q
          else env.validatorResp.revised_question),
      refined_queries := [], documents := [],
      retrieval_status := some "No documents found",
      draft_answer := none, criticisms := [], revisions := 0,
      transcript :=
        append_entry
          (append_entry
            (append_entry [] "InputValidator"
              "Validated question & created on-chain task" none
              (some ("Task ID: " ++ env.runUUID)))
            "Retriever" "Retrieved documents" (some "0 docs") none)
          "Orchestrator" "Made decision" none (some "No documents found"),
      final_answer := some noDocsAnswer }, [], ?_, rfl, rfl, rfl⟩
  simp [runFrom, runNode, nextNode, staticEdge, input_validator_node,
    retriever_node, orchestrator_node, publisher_node, route_after_retrieval,
    applyUpdate, truthyOpt, hA, hD, initialState, StateUpdate.empty,
    append_entry, noDocsAnswer,
    show k + 4 = (k+3)+1 from rfl, show k + 3 = (k+2)+1 from rfl,
    show k + 2 = (k+1)+1 from rfl]
  decide

/-- Witness for claim C7: a concrete run with an approving validator and an
empty combined search result. -/
theorem c7_witness :
    ∃ s ex,
      (runFrom envA 4 "input_validator" (initialState "What is X?" none)
        [] [] []).1 =
        RunOutcome.finished s ex
          ["input_validator", "retriever", "orchestrator", "publisher"] ∧
      s.retrieval_status = some "No documents found" ∧
      route_after_retrieval s = "orchestrator" ∧
      s.final_answer = some noDocsAnswer :=
  c7_empty_retrieval_routes_to_fallback "What is X?" none envA 0 rfl rfl

end Kognys
